import Mathlib

/-!
Verification of the PV-deployment climate model (src/gy).

Shallow embedding of the Python sources into Lean 4. Python floats are
modelled as rationals (ℚ); a Python exception that escapes a function is
modelled as `none` of an `Option` result. Definitions mirror the source
files:

* `src/gy/src/config.py`      — the global constants and scenario tables;
* `src/gy/src/climate_model.py` — `ClimateModel.apply_energy_forcing`,
  `ClimateModel.get_variables` (longitude conformance), and the pure
  functions `calculate_net_radiation_change` and its intermediates;
* `src/gy/src/simulation.py`  — `Simulation.run`, the monthly feedback loop;
* `src/gy/src/main_batch.py`  — `calculate_global_impact` and the scenario
  sweep `main`.

`src/gy/src/pv_model.py` is imported by `simulation.py` but is not present
in the repository snapshot, so `PVModel.calculate_power` is modelled from
the spec (§4.2), as noted at its definition.
-/

/-- config.py: `CLIMATE_SENSITIVITY = 0.02` (°C per W/m²). -/
def CLIMATE_SENSITIVITY : ℚ := 2/100

/-- config.py: `GROUND_ALBEDO_DEFAULT = 0.25`.  Note the name: `config.py`
defines only this default; the attribute `GROUND_ALBEDO` read by
`Simulation.run` is created only when a sweep driver assigns it. -/
def GROUND_ALBEDO_DEFAULT : ℚ := 25/100

/-- config.py: `PV_TEMPERATURE_COEFFICIENT = -0.08` (%/°C). -/
def PV_TEMPERATURE_COEFFICIENT : ℚ := -8/100

/-- config.py: `CO2_EMISSION_FACTOR_Kwh = 0.5366` (kgCO2/kWh). -/
def CO2_EMISSION_FACTOR_Kwh : ℚ := 5366/10000

/-- config.py: `TCRE_C_PER_1000_GTCO2 = 0.5` (°C per 1000 GtCO2). -/
def TCRE_C_PER_1000_GTCO2 : ℚ := 5/10

/-- config.py: `EARTH_SURFACE_AREA_M2 = 5.101e14` (m²). -/
def EARTH_SURFACE_AREA_M2 : ℚ := 5101 * 10 ^ 11

/-- config.py: `SIMULATION_STEPS = 240`. -/
def SIMULATION_STEPS : ℕ := 240

/-- config.py: `SIMULATION_LON = -105.2705` (Boulder, CO). -/
def SIMULATION_LON : ℚ := -1052705/10000

/-- climate_model.py, `calculate_net_radiation_change`:
`energy_absorbed_ground = solar_irradiance * (1 - ground_albedo)`. -/
def energy_absorbed_ground (solar_irradiance ground_albedo : ℚ) : ℚ :=
  solar_irradiance * (1 - ground_albedo)

/-- climate_model.py, `calculate_net_radiation_change`:
`energy_absorbed_panel = solar_irradiance * (1 - panel_albedo)`. -/
def energy_absorbed_panel (solar_irradiance panel_albedo : ℚ) : ℚ :=
  solar_irradiance * (1 - panel_albedo)

/-- climate_model.py, `calculate_net_radiation_change`:
`waste_heat = energy_absorbed_panel * (1 - pv_efficiency)`. -/
def waste_heat (solar_irradiance panel_albedo pv_efficiency : ℚ) : ℚ :=
  energy_absorbed_panel solar_irradiance panel_albedo * (1 - pv_efficiency)

/-- climate_model.py: `calculate_net_radiation_change`, the change in net
radiation at the surface: `waste_heat - energy_absorbed_ground`. -/
def calculate_net_radiation_change
    (solar_irradiance ground_albedo panel_albedo pv_efficiency : ℚ) : ℚ :=
  waste_heat solar_irradiance panel_albedo pv_efficiency -
    energy_absorbed_ground solar_irradiance ground_albedo

/-- climate_model.py: `ClimateModel.apply_energy_forcing(energy_watts, area_m2)`.
Computes `forcing_w_m2 = energy_watts / area_m2` and OVERWRITES the stored
anomaly with `forcing_w_m2 * config.CLIMATE_SENSITIVITY`.  Returns the new
anomaly value; `none` models the `ZeroDivisionError` Python raises when
`area_m2 == 0`. -/
def apply_energy_forcing (energy_watts area_m2 : ℚ) : Option ℚ :=
  if area_m2 = 0 then none
  else some (energy_watts / area_m2 * CLIMATE_SENSITIVITY)

/-- climate_model.py, `ClimateModel.get_variables`, line 44:
`lon_conformed = lon if lon >= 0 else 360 + lon`. -/
def lon_conformed (lon : ℚ) : ℚ :=
  if 0 ≤ lon then lon else 360 + lon

/-- The PV panel parameters held by `PVModel` (`self.pv` in simulation.py):
area m², albedo, efficiency, temperature coefficient %/°C. -/
structure PVModel where
  area : ℚ
  albedo : ℚ
  efficiency : ℚ
  temperature_coefficient : ℚ
deriving DecidableEq

/-- Modelled from the spec: `pv_model.py` (`PVModel.calculate_power`) is
imported by `simulation.py` but missing from the repository snapshot.
Spec §4.2: `rawPower = insolation × area × efficiency`, derated linearly
around the 25 °C reference by `1 + coefficient × (ambientTemperature − 25) / 100`,
and the result is floored at 0. -/
def PVModel.calculate_power (pv : PVModel) (insolation ambient_temp : ℚ) : ℚ :=
  max 0 (insolation * pv.area * pv.efficiency *
    (1 + pv.temperature_coefficient * (ambient_temp - 25) / 100))

/-- One row appended to `self.results` per successful step of
`Simulation.run` (simulation.py lines 71–79). -/
structure StepRecord where
  month : ℕ
  local_temp_C : ℚ
  temp_anomaly_C : ℚ
  insolation_W_m2 : ℚ
  albedo_forcing_W : ℚ
  waste_heat_forcing_W : ℚ
  pv_power_W : ℚ
deriving DecidableEq

/-- The mutable state threaded through the loop of `Simulation.run`:
`ClimateModel.temperature_anomaly_C` (initially 0) and the accumulated
`self.results` list. -/
structure SimState where
  anomaly : ℚ
  results : List StepRecord
deriving DecidableEq

/-- The attribute `config.GROUND_ALBEDO`, as read by simulation.py line 56.  `config.py`
never defines this attribute (only `GROUND_ALBEDO_DEFAULT`); it exists only
after a sweep driver (main_batch.py line 56, goal_seek.py line 68) assigns
it, hence an `Option`: `none` models the attribute being absent, so that
reading it raises `AttributeError`. -/
structure SimConfig where
  groundAlbedo : Option ℚ

/-- A per-step data source: for step `i`, `data i = some (baseline_temp_C,
insolation)` when both dataset lookups succeed, `none` when
`ClimateModel.get_variables` returns `None` for that step. -/
def DataSource : Type := ℕ → Option (ℚ × ℚ)

/-- The body of the `for step in range(...)` loop of `Simulation.run`
(simulation.py lines 30–79) at step `i`.  `get_variables` returning `None`
skips the step (`continue`): the state is returned unchanged.  Otherwise the
local temperature is the baseline plus the current anomaly (climate_model.py
line 67), power, albedo forcing, absorbed energy, waste-heat forcing and
total forcing are computed, `apply_energy_forcing` overwrites the anomaly,
and the record for this step — holding the freshly overwritten
`temperature_anomaly_C` — is appended.  `none` models an uncaught Python
exception: reading the absent `config.GROUND_ALBEDO` (`AttributeError`) or
dividing by a zero area (`ZeroDivisionError`). -/
def simStep (cfg : SimConfig) (pv : PVModel) (data : DataSource) (i : ℕ)
    (st : SimState) : Option SimState :=
  match data i with
  | none => some st
  | some (baseline_temp, insolation) =>
    match cfg.groundAlbedo with
    | none => none
    | some ground_albedo =>
      let current_local_temp := baseline_temp + st.anomaly
      let final_power_W := pv.calculate_power insolation current_local_temp
      let albedo_forcing_W := insolation * pv.area * (ground_albedo - pv.albedo)
      let absorbed_energy_W := insolation * pv.area * (1 - pv.albedo)
      let waste_heat_forcing_W := absorbed_energy_W - final_power_W
      let total_forcing_W := albedo_forcing_W + waste_heat_forcing_W
      match apply_energy_forcing total_forcing_W pv.area with
      | none => none
      | some newAnomaly =>
        some ⟨newAnomaly,
          st.results ++ [⟨i, current_local_temp, newAnomaly, insolation,
            albedo_forcing_W, waste_heat_forcing_W, final_power_W⟩]⟩

/-- Runs `n` consecutive iterations of the loop of `Simulation.run`, starting at
step index `i`. -/
def runFrom (cfg : SimConfig) (pv : PVModel) (data : DataSource) :
    ℕ → ℕ → SimState → Option SimState
  | _, 0, st => some st
  | i, n + 1, st => (simStep cfg pv data i st).bind (runFrom cfg pv data (i + 1) n)

/-- simulation.py, `Simulation.run`: `load_data` leaves `temp_data` /
`rad_data` as `None` when the corresponding dataset cannot be opened
(climate_model.py lines 18–33); `run` then returns `[]` before the loop
(lines 26–28).  Otherwise the loop runs for `steps` months starting from
anomaly 0 and an empty results list, and the results list is returned.
The two datasets are modelled as per-step lookups (`none` = that dataset
yields no value at that step); `get_variables` succeeds at a step only when
both succeed. -/
def runSim (cfg : SimConfig) (pv : PVModel)
    (temp_data : Option (ℕ → Option ℚ)) (rad_data : Option (ℕ → Option ℚ))
    (steps : ℕ) : Option (List StepRecord) :=
  match temp_data, rad_data with
  | some td, some rd =>
    (runFrom cfg pv
      (fun i => match td i, rd i with
        | some t, some r => some (t, r)
        | _, _ => none)
      0 steps ⟨0, []⟩).map SimState.results
  | _, _ => some []

/-- The total forcing computed at one successful step of `Simulation.run`
(lines 56–62), as a function of the panel, ground albedo, the step's
baseline temperature and insolation, and the anomaly in effect when the
step begins. -/
def step_total_forcing (pv : PVModel) (ground_albedo baseline_temp insolation
    anomaly : ℚ) : ℚ :=
  insolation * pv.area * (ground_albedo - pv.albedo) +
    (insolation * pv.area * (1 - pv.albedo) -
      pv.calculate_power insolation (baseline_temp + anomaly))

/-- main_batch.py: `calculate_global_impact(total_energy_gwh)`.  GWh → kWh,
kWh × emission factor / 1000 = tonnes CO2, / 1e9 = Gt, and the global
temperature change is `-((Gt / 1000) * TCRE)`.  Returns
`(global_temp_change_c, total_co2_reduction_gtco2)`. -/
def calculate_global_impact (total_energy_gwh : ℚ) : ℚ × ℚ :=
  let total_energy_kwh := total_energy_gwh * 1000000
  let total_co2_reduction_tonnes := total_energy_kwh * CO2_EMISSION_FACTOR_Kwh / 1000
  let total_co2_reduction_gtco2 := total_co2_reduction_tonnes / 1000000000
  let global_temp_change_c := -((total_co2_reduction_gtco2 / 1000) * TCRE_C_PER_1000_GTCO2)
  (global_temp_change_c, total_co2_reduction_gtco2)

/-- One entry of `config.MATERIAL_TYPES`: panel albedo (`none` for
`bare_ground`, meaning "inherit the surface albedo"), efficiency, and the
display `name` stored into the result rows. -/
structure MaterialParams where
  albedo : Option ℚ
  efficiency : ℚ
  name : String
deriving DecidableEq

/-- config.py: `SURFACE_TYPES`, as (key, ground albedo) pairs in
definition order. -/
def SURFACE_TYPES : List (String × ℚ) :=
  [("standard_land", 25/100), ("desert", 40/100), ("ocean", 8/100)]

/-- config.py: `MATERIAL_TYPES`, in definition order. -/
def MATERIAL_TYPES : List (String × MaterialParams) :=
  [("perovskite_pv", ⟨some (15/100), 25/100, "新型光伏 (钙钛矿)"⟩),
   ("silicon_pv", ⟨some (10/100), 18/100, "传统光伏 (晶硅)"⟩),
   ("mirror", ⟨some (85/100), 0, "镜面"⟩),
   ("bare_ground", ⟨none, 0, "地表本身"⟩)]

/-- config.py: `COVERAGE_SCENARIOS`, as (key, fraction, display name)
triples in definition order. -/
def COVERAGE_SCENARIOS : List (String × ℚ × String) :=
  [("small_scale", (1/10000, "0.01%")),
   ("medium_scale", (1/1000, "0.1%")),
   ("large_scale", (1/100, "1%")),
   ("extreme_scale", (1/10, "10%"))]

/-- main_batch.py line 67: the number of hours between
`TIME_START = 2024-01-01` and `TIME_END = 2043-12-31` (7304 days). -/
def simulation_hours : ℚ := 7304 * 24

/-- The `pandas.Series.mean` operation on the rationals: sum divided by length.  (On an
empty series pandas yields NaN where this yields 0; none of the verified
properties depends on the empty-series value.) -/
def seriesMean (xs : List ℚ) : ℚ := xs.sum / xs.length

/-- One row of the summary table built by `main_batch.main` (lines 94–104). -/
structure ScenarioResult where
  surface_type : String
  material_type : String
  coverage_scenario : String
  surface_albedo : ℚ
  panel_albedo : ℚ
  panel_efficiency : ℚ
  avg_local_temp_anomaly_C : ℚ
  global_temp_change_C : ℚ
  total_co2_reduction_Gt : ℚ
deriving DecidableEq

/-- The inner body of `main_batch.main` for one (surface, material) pair:
a fresh simulation is run once (its output abstracted as `rs`, applied to
the ground albedo, the resolved panel albedo and the efficiency that the
driver writes into `config.GROUND_ALBEDO` and `sim.pv`), the average
anomaly is computed once, and then one row per coverage scenario is
emitted.  For efficiency-0 materials the global effect is set to exactly
(0, 0); otherwise mean power density (power / 1000, the hardcoded area)
is scaled by coverage × Earth surface area × hours and fed to
`calculate_global_impact`. -/
def pairRows (rs : ℚ → ℚ → ℚ → List StepRecord)
    (s : String × ℚ) (m : String × MaterialParams) : List ScenarioResult :=
  let panel_albedo := (m.2.albedo).getD s.2
  let raw_results := rs s.2 panel_albedo m.2.efficiency
  let avg_local_temp_anomaly := seriesMean (raw_results.map StepRecord.temp_anomaly_C)
  COVERAGE_SCENARIOS.map fun c =>
    let impact : ℚ × ℚ :=
      if m.2.efficiency = 0 then (0, 0)
      else
        let mean_power_density_w_m2 :=
          seriesMean (raw_results.map fun r => r.pv_power_W / 1000)
        let total_panel_area_m2 := EARTH_SURFACE_AREA_M2 * c.2.1
        let total_energy_wh := mean_power_density_w_m2 * total_panel_area_m2 * simulation_hours
        calculate_global_impact (total_energy_wh / 1000000000)
    { surface_type := s.1
      material_type := m.2.name
      coverage_scenario := c.2.2
      surface_albedo := s.2
      panel_albedo := panel_albedo
      panel_efficiency := m.2.efficiency
      avg_local_temp_anomaly_C := avg_local_temp_anomaly
      global_temp_change_C := impact.1
      total_co2_reduction_Gt := impact.2 }

/-- main_batch.py, `main`: the scenario sweep — nested enumeration, surface
outer, material middle, coverage inner.  `rs` abstracts what one
`Simulation.run` returns for a given (ground albedo, panel albedo,
efficiency) configuration; every property below is proved for every `rs`. -/
def mainBatch (rs : ℚ → ℚ → ℚ → List StepRecord) : List ScenarioResult :=
  SURFACE_TYPES.flatMap fun s => MATERIAL_TYPES.flatMap fun m => pairRows rs s m

/-- C6: with insolation 700 W/m², ground albedo 0.25, panel albedo 0.15 and
efficiency 0.25, `calculate_net_radiation_change` yields
groundAbsorbed = 525, panelAbsorbed = 595, waste heat = 446.25 (= 1785/4),
the implicitly converted (pre-derating) power panelAbsorbed − wasteHeat =
148.75 (= 595/4), and net forcing 446.25 − 525 = −78.75 (= −315/4). -/
theorem literal_example_radiation_balance :
    energy_absorbed_ground 700 (25/100) = 525 ∧
    energy_absorbed_panel 700 (15/100) = 595 ∧
    waste_heat 700 (15/100) (25/100) = 1785/4 ∧
    energy_absorbed_panel 700 (15/100) - waste_heat 700 (15/100) (25/100) = 595/4 ∧
    calculate_net_radiation_change 700 (25/100) (15/100) (25/100) = 1785/4 - 525 ∧
    calculate_net_radiation_change 700 (25/100) (15/100) (25/100) = -(315/4) := by
  norm_num [energy_absorbed_ground, energy_absorbed_panel, waste_heat,
    calculate_net_radiation_change]

/-- C7: for every non-negative total energy (GWh), `calculate_global_impact`
returns tonnes CO2 = energy(kWh) × emissionFactor / 1000, Gt = tonnes / 1e9,
and ΔT_global = −(Gt/1000) × TCRE, which is ≤ 0. -/
theorem calculate_global_impact_spec (e : ℚ) (h : 0 ≤ e) :
    calculate_global_impact e =
      (-((e * 1000000 * CO2_EMISSION_FACTOR_Kwh / 1000 / 1000000000 / 1000) *
          TCRE_C_PER_1000_GTCO2),
        e * 1000000 * CO2_EMISSION_FACTOR_Kwh / 1000 / 1000000000) ∧
    (calculate_global_impact e).1 ≤ 0 := by
  refine ⟨rfl, ?_⟩
  have hval : (calculate_global_impact e).1 = -(e * (2683/10000000000000)) := by
    simp only [calculate_global_impact, CO2_EMISSION_FACTOR_Kwh,
      TCRE_C_PER_1000_GTCO2]
    ring
  rw [hval, neg_nonpos]
  positivity

/-- C7 witness: with totalEnergy = 1,000,000 GWh the projector returns
CO2 reduction 0.5366 Gt (536,600,000 tonnes) and
ΔT_global = −0.0002683 °C ≤ 0. -/
theorem calculate_global_impact_spec_witness :
    (0:ℚ) ≤ 1000000 ∧ (calculate_global_impact 1000000).1 ≤ 0 ∧
    calculate_global_impact 1000000 = (-(2683/10000000), 5366/10000) ∧
    (calculate_global_impact 1000000).2 * 1000000000 = 536600000 := by
  refine ⟨by norm_num, (calculate_global_impact_spec 1000000 (by norm_num)).2, ?_, ?_⟩ <;>
    norm_num [calculate_global_impact, CO2_EMISSION_FACTOR_Kwh, TCRE_C_PER_1000_GTCO2]

/-- C8 counterexample: the adapter does not map every input longitude into
[0,360): an input of 500° is passed through unchanged, and 500 ∉ [0,360). -/
theorem lon_conformed_not_always_in_range :
    lon_conformed 500 = 500 ∧ ¬ lon_conformed 500 < 360 := by
  norm_num [lon_conformed]

/-- C8 (amended): for every longitude in [−360, 360) — which covers the
(−180,180) convention named by the code comment as well as the configured
point — the longitude used for the nearest-neighbor lookup lies in [0,360). -/
theorem lon_conformed_in_range (lon : ℚ) (h1 : -360 ≤ lon) (h2 : lon < 360) :
    0 ≤ lon_conformed lon ∧ lon_conformed lon < 360 := by
  unfold lon_conformed
  split <;> constructor <;> linarith

/-- C8 witness: the configured simulation longitude −105.2705 is conformed
to 254.7295 ∈ [0,360). -/
theorem lon_conformed_in_range_witness :
    (-360 ≤ SIMULATION_LON ∧ SIMULATION_LON < 360) ∧
    (0 ≤ lon_conformed SIMULATION_LON ∧ lon_conformed SIMULATION_LON < 360) ∧
    lon_conformed SIMULATION_LON = 2547295/10000 := by
  refine ⟨by norm_num [SIMULATION_LON], ?_, by norm_num [lon_conformed, SIMULATION_LON]⟩
  exact lon_conformed_in_range SIMULATION_LON (by norm_num [SIMULATION_LON])
    (by norm_num [SIMULATION_LON])

/-- C5: whenever either dataset fails to open (`load_data` leaves it as
`None`), `Simulation.run` returns an empty result list immediately — a
normal return, not a raised fault — for every configuration, panel and
step count. -/
theorem runSim_empty_on_load_failure (cfg : SimConfig) (pv : PVModel)
    (temp_data rad_data : Option (ℕ → Option ℚ)) (steps : ℕ)
    (h : temp_data = none ∨ rad_data = none) :
    runSim cfg pv temp_data rad_data steps = some [] := by
  rcases h with h | h <;> subst h
  · rfl
  · cases temp_data <;> rfl

/-- C5 witness: a run whose temperature dataset failed to open returns
`some []` (empty, no fault) at a concrete configuration. -/
theorem runSim_empty_on_load_failure_witness :
    runSim ⟨some (25/100)⟩ ⟨1000, 15/100, 25/100, -8/100⟩
      none (some fun _ => some 700) 240 = some [] :=
  runSim_empty_on_load_failure _ _ _ _ _ (Or.inl rfl)

/-- C4: when the data lookup for step `i` fails, the loop body leaves the
state unchanged — no record is appended and the anomaly is not mutated —
and the run continues with the remaining steps from `i + 1`. -/
theorem simStep_skip_on_data_error (cfg : SimConfig) (pv : PVModel)
    (data : DataSource) (i : ℕ) (st : SimState) (h : data i = none) :
    simStep cfg pv data i st = some st ∧
    ∀ n, runFrom cfg pv data i (n + 1) st = runFrom cfg pv data (i + 1) n st := by
  have hs : simStep cfg pv data i st = some st := by
    unfold simStep
    rw [h]
  refine ⟨hs, fun n => ?_⟩
  rw [runFrom, hs]
  rfl

/-- C4 witness: with a data source that has no value at step 0, the step-0
body returns the initial state unchanged and a 3-step run from step 0
equals the 2-step run from step 1. -/
theorem simStep_skip_on_data_error_witness :
    simStep ⟨some (25/100)⟩ ⟨1000, 15/100, 25/100, -8/100⟩
        (fun i => if i = 0 then none else some (10, 700)) 0 ⟨0, []⟩ =
      some ⟨0, []⟩ ∧
    runFrom ⟨some (25/100)⟩ ⟨1000, 15/100, 25/100, -8/100⟩
        (fun i => if i = 0 then none else some (10, 700)) 0 3 ⟨0, []⟩ =
      runFrom ⟨some (25/100)⟩ ⟨1000, 15/100, 25/100, -8/100⟩
        (fun i => if i = 0 then none else some (10, 700)) 1 2 ⟨0, []⟩ :=
  ⟨(simStep_skip_on_data_error _ _ _ _ _ rfl).1,
   (simStep_skip_on_data_error _ _ _ _ _ rfl).2 2⟩

/-- C3 (the gap the claim denies is absent): no validation of the panel
area exists.  With area = −1000 m² (ground albedo 0.25, panel albedo 0.15,
efficiency 0.25, coefficient −0.08, one step with baseline 10 °C and
insolation 700 W/m²) the run completes normally and emits a record with a
sign-flipped anomaly of +13.3 °C instead of failing fast with a
configuration error; with area = 0 the run aborts with an uncaught
`ZeroDivisionError` (modelled `none`) in the middle of the loop — again
not a configuration error raised at construction. -/
theorem no_fail_fast_on_nonpositive_area :
    runSim ⟨some (25/100)⟩ ⟨-1000, 15/100, 25/100, -8/100⟩
        (some fun _ => some 10) (some fun _ => some 700) 1 =
      some [⟨0, 10, 133/10, 700, -70000, -595000, 0⟩] ∧
    runSim ⟨some (25/100)⟩ ⟨0, 15/100, 25/100, -8/100⟩
        (some fun _ => some 10) (some fun _ => some 700) 1 = none := by
  constructor <;>
    norm_num [runSim, runFrom, simStep, apply_energy_forcing,
      PVModel.calculate_power, CLIMATE_SENSITIVITY, max_def]

/-- C1 (amended): at every successful step `i` (lookup succeeded, ground
albedo present, nonzero area), `apply_energy_forcing` OVERWRITES the stored
anomaly: the anomaly in effect at step `i + 1` is exactly
`totalForcing(i) / area × climateSensitivity`, where `totalForcing(i)` is
the forcing computed at step `i` (the incoming anomaly enters only through
the derated power term inside it, never additively), and this value is the
`temp_anomaly_C` recorded in the `TimeStepRecord` appended at step `i`
itself — not at step `i + 1`, whose record holds
`totalForcing(i+1) / area × climateSensitivity`. -/
theorem anomaly_overwrite_single_step (g : ℚ) (pv : PVModel)
    (data : DataSource) (i : ℕ) (st : SimState) (t I : ℚ)
    (hd : data i = some (t, I)) (ha : pv.area ≠ 0) :
    simStep ⟨some g⟩ pv data i st =
      some ⟨step_total_forcing pv g t I st.anomaly / pv.area * CLIMATE_SENSITIVITY,
        st.results ++
          [⟨i, t + st.anomaly,
            step_total_forcing pv g t I st.anomaly / pv.area * CLIMATE_SENSITIVITY,
            I,
            I * pv.area * (g - pv.albedo),
            I * pv.area * (1 - pv.albedo) - pv.calculate_power I (t + st.anomaly),
            pv.calculate_power I (t + st.anomaly)⟩]⟩ := by
  unfold simStep apply_energy_forcing step_total_forcing
  rw [hd]
  simp [ha]

/-- C1 witness: at a concrete step (ground albedo 0.25, area 1000 m²,
panel albedo 0.15, efficiency 0.25, coefficient 0, baseline 10 °C,
insolation 700 W/m², incoming anomaly 0) the step output evaluates to the
overwritten anomaly 9.8 °C, recorded in that step's own record. -/
theorem anomaly_overwrite_single_step_witness :
    simStep ⟨some (25/100)⟩ ⟨1000, 15/100, 25/100, 0⟩
        (fun _ => some (10, 700)) 0 ⟨0, []⟩ =
      some ⟨49/5, [⟨0, 10, 49/5, 700, 70000, 420000, 175000⟩]⟩ :=
  (anomaly_overwrite_single_step (25/100) ⟨1000, 15/100, 25/100, 0⟩
    (fun _ => some (10, 700)) 0 ⟨0, []⟩ 10 700 rfl (by norm_num)).trans
    (by norm_num [step_total_forcing, PVModel.calculate_power,
      CLIMATE_SENSITIVITY, max_def])

/-- C1 counterexample: the claim as stated — the `temp_anomaly_C` recorded
in the record of step i+1 equals `climateSensitivity × totalForcing(i)/area`
— is false.  In a two-step run whose insolation changes from 700 to
800 W/m², `climateSensitivity × totalForcing(0)/area = 9.8`, but the record
of step 1 stores `11.2` (namely `climateSensitivity × totalForcing(1)/area`;
step 0's record is the one storing 9.8). -/
theorem record_at_next_step_not_previous_forcing :
    runSim ⟨some (25/100)⟩ ⟨1000, 15/100, 25/100, 0⟩
        (some fun _ => some 10)
        (some fun i => if i = 0 then some 700 else some 800) 2 =
      some [⟨0, 10, 49/5, 700, 70000, 420000, 175000⟩,
            ⟨1, 99/5, 56/5, 800, 80000, 480000, 200000⟩] ∧
    CLIMATE_SENSITIVITY * step_total_forcing ⟨1000, 15/100, 25/100, 0⟩
        (25/100) 10 700 0 / 1000 = 49/5 ∧
    (56:ℚ)/5 ≠ 49/5 := by
  refine ⟨?_, ?_, by norm_num⟩ <;>
    norm_num [runSim, runFrom, simStep, apply_energy_forcing, step_total_forcing,
      PVModel.calculate_power, CLIMATE_SENSITIVITY, max_def]

/-- C9: at any step with positive insolation where the panel inherits the
ground albedo and has efficiency 0 (the `bare_ground` material), the albedo
forcing is 0, the generated power is 0, the waste-heat forcing — and hence
the total forcing — is `insolation × area × (1 − groundAlbedo)`, which is
strictly positive for groundAlbedo < 1, and the recorded temperature
anomaly is strictly positive. -/
theorem bare_ground_forcing_positive (pv : PVModel) (g t I : ℚ)
    (data : DataSource) (i : ℕ) (st : SimState)
    (heff : pv.efficiency = 0) (halb : pv.albedo = g)
    (hI : 0 < I) (hA : 0 < pv.area) (hg : g < 1)
    (hd : data i = some (t, I)) :
    simStep ⟨some g⟩ pv data i st =
      some ⟨I * pv.area * (1 - g) / pv.area * CLIMATE_SENSITIVITY,
        st.results ++ [⟨i, t + st.anomaly,
          I * pv.area * (1 - g) / pv.area * CLIMATE_SENSITIVITY, I,
          0, I * pv.area * (1 - g), 0⟩]⟩ ∧
    0 < I * pv.area * (1 - g) ∧
    0 < I * pv.area * (1 - g) / pv.area * CLIMATE_SENSITIVITY := by
  have hp : pv.calculate_power I (t + st.anomaly) = 0 := by
    simp [PVModel.calculate_power, heff]
  have h1 : 0 < I * pv.area * (1 - g) := by
    have hg1 : 0 < 1 - g := by linarith
    positivity
  refine ⟨?_, h1, ?_⟩
  · unfold simStep apply_energy_forcing
    rw [hd]
    simp [hA.ne', halb, hp]
  · have h2 : 0 < I * pv.area * (1 - g) / pv.area := div_pos h1 hA
    have h3 : (0:ℚ) < CLIMATE_SENSITIVITY := by norm_num [CLIMATE_SENSITIVITY]
    exact mul_pos h2 h3

/-- C9 witness: bare ground on standard land (albedo 0.25 inherited,
efficiency 0) at 700 W/m² over 1000 m²: the total forcing
700 × 1000 × 0.75 = 525000 W and the recorded anomaly are both positive. -/
theorem bare_ground_forcing_positive_witness :
    0 < 700 * (1000:ℚ) * (1 - 25/100) ∧
    0 < 700 * (1000:ℚ) * (1 - 25/100) / 1000 * CLIMATE_SENSITIVITY ∧
    700 * (1000:ℚ) * (1 - 25/100) = 525000 :=
  ⟨(bare_ground_forcing_positive ⟨1000, 25/100, 0, -8/100⟩ (25/100) 10 700
      (fun _ => some (10, 700)) 0 ⟨0, []⟩ rfl rfl (by norm_num) (by norm_num)
      (by norm_num) rfl).2.1,
   (bare_ground_forcing_positive ⟨1000, 25/100, 0, -8/100⟩ (25/100) 10 700
      (fun _ => some (10, 700)) 0 ⟨0, []⟩ rfl rfl (by norm_num) (by norm_num)
      (by norm_num) rfl).2.2,
   by norm_num⟩

/-- With `config.GROUND_ALBEDO` never assigned, the loop aborts (with an
`AttributeError`, modelled `none`) as soon as any step in range has data:
failing steps are skipped, and the first successful lookup reaches the
read of the missing attribute. -/
theorem runFrom_none_of_lookup_success (pv : PVModel) (data : DataSource) :
    ∀ (N i : ℕ) (st : SimState), (∃ j, i ≤ j ∧ j < i + N ∧ data j ≠ none) →
      runFrom ⟨none⟩ pv data i N st = none := by
  intro N
  induction N with
  | zero =>
    intro i st h
    rcases h with ⟨j, h1, h2, _⟩
    omega
  | succ n ih =>
    intro i st h
    rcases h with ⟨j, h1, h2, h3⟩
    rw [runFrom]
    cases hdi : data i with
    | some p =>
      obtain ⟨pt, pI⟩ := p
      have hnone : simStep ⟨none⟩ pv data i st = none := by
        unfold simStep
        rw [hdi]
      rw [hnone]
      rfl
    | none =>
      have hst : simStep ⟨none⟩ pv data i st = some st := by
        unfold simStep
        rw [hdi]
      rw [hst]
      have hji : j ≠ i := fun e => h3 (by rw [e, hdi])
      exact ih (i + 1) st ⟨j, by omega, by omega, h3⟩

/-- C10: `Simulation.run` reads `config.GROUND_ALBEDO`, which `config.py`
never defines (it defines only `GROUND_ALBEDO_DEFAULT`); in a standalone
invocation (main.py), where no sweep driver has assigned the attribute, any
run whose data source initializes and in which at least one step's lookup
succeeds aborts with an `AttributeError` (modelled `none`) at the first
successful step, instead of producing records. -/
theorem standalone_run_raises_attribute_error (pv : PVModel)
    (td rd : ℕ → Option ℚ) (N j : ℕ)
    (hj : j < N) (ht : td j ≠ none) (hr : rd j ≠ none) :
    runSim ⟨none⟩ pv (some td) (some rd) N = none := by
  obtain ⟨a, ha⟩ := Option.ne_none_iff_exists'.mp ht
  obtain ⟨b, hb⟩ := Option.ne_none_iff_exists'.mp hr
  have hrun : runFrom ⟨none⟩ pv
      (fun i => match td i, rd i with
        | some t, some r => some (t, r)
        | _, _ => none) 0 N ⟨0, []⟩ = none := by
    apply runFrom_none_of_lookup_success
    refine ⟨j, Nat.zero_le j, by omega, ?_⟩
    simp [ha, hb]
  have hdef : runSim ⟨none⟩ pv (some td) (some rd) N =
      Option.map SimState.results (runFrom ⟨none⟩ pv
        (fun i => match td i, rd i with
          | some t, some r => some (t, r)
          | _, _ => none) 0 N ⟨0, []⟩) := rfl
  rw [hdef, hrun]
  rfl

/-- C10 witness: a 240-step standalone run (the configured horizon) whose
lookups all succeed returns the `AttributeError` abort, not records. -/
theorem standalone_run_raises_attribute_error_witness :
    runSim ⟨none⟩ ⟨1000, 15/100, 25/100, -8/100⟩
      (some fun _ => some 10) (some fun _ => some 700) SIMULATION_STEPS = none :=
  standalone_run_raises_attribute_error ⟨1000, 15/100, 25/100, -8/100⟩
    (fun _ => some 10) (fun _ => some 700) SIMULATION_STEPS 0
    (by norm_num [SIMULATION_STEPS]) (by simp) (by simp)

/-- Distinct surface keys name distinct `SURFACE_TYPES` entries. -/
theorem surface_key_determines (s s' : String × ℚ)
    (hs : s ∈ SURFACE_TYPES) (hs' : s' ∈ SURFACE_TYPES) (h : s.1 = s'.1) :
    s = s' := by
  simp only [SURFACE_TYPES, List.mem_cons, List.not_mem_nil, or_false] at hs hs'
  rcases hs with rfl | rfl | rfl <;> rcases hs' with rfl | rfl | rfl <;>
    first
    | rfl
    | exact absurd h (by decide)

/-- Distinct material display names name distinct `MATERIAL_TYPES` entries. -/
theorem material_name_determines (m m' : String × MaterialParams)
    (hm : m ∈ MATERIAL_TYPES) (hm' : m' ∈ MATERIAL_TYPES) (h : m.2.name = m'.2.name) :
    m = m' := by
  simp only [MATERIAL_TYPES, List.mem_cons, List.not_mem_nil, or_false] at hm hm'
  rcases hm with rfl | rfl | rfl | rfl <;> rcases hm' with rfl | rfl | rfl | rfl <;>
    first
    | rfl
    | exact absurd h (by decide)

/-- Every row emitted for a (surface, material) pair carries that pair's
key and name, the material's efficiency, the pair's single average
anomaly, and — when the efficiency is 0 — exactly zero global impact. -/
theorem pairRows_fields (rs : ℚ → ℚ → ℚ → List StepRecord)
    (s : String × ℚ) (m : String × MaterialParams) (r : ScenarioResult)
    (hr : r ∈ pairRows rs s m) :
    r.surface_type = s.1 ∧ r.material_type = m.2.name ∧
    r.panel_efficiency = m.2.efficiency ∧
    r.avg_local_temp_anomaly_C =
      seriesMean ((rs s.2 ((m.2.albedo).getD s.2) m.2.efficiency).map
        StepRecord.temp_anomaly_C) ∧
    (m.2.efficiency = 0 →
      r.global_temp_change_C = 0 ∧ r.total_co2_reduction_Gt = 0) := by
  simp only [pairRows, List.mem_map] at hr
  obtain ⟨c, hc, rfl⟩ := hr
  refine ⟨rfl, rfl, rfl, rfl, fun h0 => ?_⟩
  constructor <;> simp [h0]

/-- Membership in the sweep output decomposes into a surface entry, a
material entry, and a row of that pair. -/
theorem mem_mainBatch (rs : ℚ → ℚ → ℚ → List StepRecord) (r : ScenarioResult)
    (hr : r ∈ mainBatch rs) :
    ∃ s ∈ SURFACE_TYPES, ∃ m ∈ MATERIAL_TYPES, r ∈ pairRows rs s m := by
  simp only [mainBatch, List.mem_flatMap] at hr
  exact hr

/-- C2: for every run oracle `rs` (the per-pair simulation output), every
row of the sweep whose material has efficiency 0 has exactly zero global
temperature change and zero CO2 reduction, and any two rows sharing a
(surface, material) pair — in particular all coverage rows of a fixed
pair — carry the identical average local temperature anomaly. -/
theorem scenario_sweep_zero_efficiency (rs : ℚ → ℚ → ℚ → List StepRecord) :
    (∀ r ∈ mainBatch rs, r.panel_efficiency = 0 →
      r.global_temp_change_C = 0 ∧ r.total_co2_reduction_Gt = 0) ∧
    (∀ r ∈ mainBatch rs, ∀ r' ∈ mainBatch rs,
      r.surface_type = r'.surface_type → r.material_type = r'.material_type →
      r.avg_local_temp_anomaly_C = r'.avg_local_temp_anomaly_C) := by
  constructor
  · intro r hr h0
    obtain ⟨s, hs, m, hm, hrp⟩ := mem_mainBatch rs r hr
    obtain ⟨_, _, heff, _, hzero⟩ := pairRows_fields rs s m r hrp
    exact hzero (by rw [← heff]; exact h0)
  · intro r hr r' hr' hsur hmat
    obtain ⟨s, hs, m, hm, hrp⟩ := mem_mainBatch rs r hr
    obtain ⟨s', hs', m', hm', hrp'⟩ := mem_mainBatch rs r' hr'
    obtain ⟨hs1, hm1, _, havg, _⟩ := pairRows_fields rs s m r hrp
    obtain ⟨hs1', hm1', _, havg', _⟩ := pairRows_fields rs s' m' r' hrp'
    have hss : s = s' :=
      surface_key_determines s s' hs hs' (by rw [← hs1, ← hs1', hsur])
    have hmm : m = m' :=
      material_name_determines m m' hm hm' (by rw [← hm1, ← hm1', hmat])
    rw [havg, havg', hss, hmm]

/-- C2 witness: in the sweep over an oracle returning no records, rows 8
and 9 (mirror on standard land, two coverage scales) have efficiency 0,
zero global impact, and the same average anomaly as each other. -/
theorem scenario_sweep_zero_efficiency_witness :
    (((mainBatch fun _ _ _ => []).get ⟨8, by decide⟩).global_temp_change_C = 0 ∧
     ((mainBatch fun _ _ _ => []).get ⟨8, by decide⟩).total_co2_reduction_Gt = 0) ∧
    ((mainBatch fun _ _ _ => []).get ⟨8, by decide⟩).avg_local_temp_anomaly_C =
      ((mainBatch fun _ _ _ => []).get ⟨9, by decide⟩).avg_local_temp_anomaly_C :=
  ⟨(scenario_sweep_zero_efficiency (fun _ _ _ => [])).1 _
      (List.get_mem _ 8 (by decide)) (by decide),
   (scenario_sweep_zero_efficiency (fun _ _ _ => [])).2 _
      (List.get_mem _ 8 (by decide)) _ (List.get_mem _ 9 (by decide))
      (by decide) (by decide)⟩
